import Mathlib

/-!
Shallow embedding of the code snippets of the Patterns-guide repository
and proofs of the spec claims about them.

Each definition mirrors one JavaScript class or method from the source
markdown or example files; the theorem section settles the claims.
-/

/-! ## Adapter example: OldCalc, NewCalc, CalcAdapter -/

/-- Result of a calculator operation in the JavaScript snippets: either a
number or the JavaScript value NaN, which the default switch branch returns. -/
inductive JsNum where
  | num (n : Int)
  | nan
deriving DecidableEq, Repr

/-- Method operations of class OldCalc: a switch on the operation string,
returning t1 + t2 for add, t1 - t2 for sub, and NaN by default. -/
def OldCalc.operations (t1 t2 : Int) (operation : String) : JsNum :=
  if operation = "add" then .num (t1 + t2)
  else if operation = "sub" then .num (t1 - t2)
  else .nan

/-- Method add of class NewCalc. -/
def NewCalc.add (t1 t2 : Int) : Int := t1 + t2

/-- Method sub of class NewCalc. -/
def NewCalc.sub (t1 t2 : Int) : Int := t1 - t2

/-- Method operations of class CalcAdapter: the constructor stores a NewCalc
in this.calc, and operations routes add and sub to this.calc.add and
this.calc.sub, returning NaN by default. -/
def CalcAdapter.operations (t1 t2 : Int) (operation : String) : JsNum :=
  if operation = "add" then .num (NewCalc.add t1 t2)
  else if operation = "sub" then .num (NewCalc.sub t1 t2)
  else .nan

/-- Written from the words of the spec claim C8, for comparison with the two
source implementations: t1 + t2 for add, t1 - t2 for sub, NaN otherwise. -/
def calcOperationsSpec (t1 t2 : Int) (operation : String) : JsNum :=
  if operation = "add" then .num (t1 + t2)
  else if operation = "sub" then .num (t1 - t2)
  else .nan

/-! ## Decorator example: Text and the text decorators -/

/-- Class Text from the decorator example: the constructor stores the content
string in this.content. -/
structure Text where
  content : String
deriving DecidableEq, Repr

/-- Object graphs built from Text and the three concrete decorators
BoldDecorator, ItalicDecorator, UnderlineDecorator, each of which stores the
wrapped component (the TextDecorator constructor stores it in this.text). -/
inductive TextComponent where
  | text (t : Text)
  | bold (inner : TextComponent)
  | italic (inner : TextComponent)
  | underline (inner : TextComponent)
deriving DecidableEq, Repr

/-- Method getContent: Text returns this.content; each concrete decorator
returns the wrapped getContent result surrounded by its own tag pair, as in
the template literals of the source. -/
def TextComponent.getContent : TextComponent → String
  | .text t => t.content
  | .bold inner => "<b>" ++ inner.getContent ++ "</b>"
  | .italic inner => "<i>" ++ inner.getContent ++ "</i>"
  | .underline inner => "<u>" ++ inner.getContent ++ "</u>"

/-! ## Observer examples: Subject, Observer, NewsPublisher

Observers are mutable objects compared by reference in the JavaScript
source (unsubscribe filters with a strict inequality on object identity).
We model an object reference as a Nat identifier and keep the observer
objects themselves in a store mapping identifiers to states. -/

/-- JsAction objects fired at the Subject: a type string and, for MULTI_PLUS,
a numeric value field. -/
structure JsAction where
  type : String
  value : Int
deriving DecidableEq, Repr

/-- Class Observer: the constructor stores the argument (default 1) in both
this.state and this.initialState. -/
structure Observer where
  state : Int
  initialState : Int
deriving DecidableEq, Repr

/-- Constructor of class Observer, with its default argument 1. -/
def Observer.new (state : Int := 1) : Observer :=
  { state := state, initialState := state }

/-- Method update of class Observer: a switch on action.type. PLUS increments
this.state, MINUS decrements it, MULTI_PLUS adds action.value, and the
default branch resets this.state to this.initialState. -/
def Observer.update (o : Observer) (action : JsAction) : Observer :=
  if action.type = "PLUS" then { o with state := o.state + 1 }
  else if action.type = "MINUS" then { o with state := o.state - 1 }
  else if action.type = "MULTI_PLUS" then { o with state := o.state + action.value }
  else { o with state := o.initialState }

/-- Class Subject: the constructor stores an empty observer list in
this.observers; the list holds object references. -/
structure Subject where
  observers : List Nat
deriving DecidableEq, Repr

/-- Method subscribe of Subject: this.observers.push(observer). -/
def Subject.subscribe (s : Subject) (observer : Nat) : Subject :=
  { observers := s.observers ++ [observer] }

/-- Method unsubscribe of Subject: replaces this.observers with its filter
keeping the observers that are not reference-equal to the argument. -/
def Subject.unsubscribe (s : Subject) (observer : Nat) : Subject :=
  { observers := s.observers.filter (fun obs => obs ≠ observer) }

/-- Method fire of Subject: this.observers.forEach calls observer.update
on each element in list order. The result records the sequence of update
invocations (receiver reference paired with the action, in call order)
together with the store after all the synchronous calls. -/
def Subject.fire (s : Subject) (store : Nat → Observer) (action : JsAction) :
    List (Nat × JsAction) × (Nat → Observer) :=
  s.observers.foldl
    (fun acc obs =>
      (acc.1 ++ [(obs, action)], Function.update acc.2 obs ((acc.2 obs).update action)))
    ([], store)

/-- Class NewsPublisher: the constructor stores an empty subscriber list and
this.news = null (modelled as Option String, none for null). -/
structure NewsPublisher where
  subscribers : List Nat
  news : Option String
deriving DecidableEq, Repr

/-- Method subscribe of NewsPublisher: this.subscribers.push(observer). -/
def NewsPublisher.subscribe (p : NewsPublisher) (observer : Nat) : NewsPublisher :=
  { p with subscribers := p.subscribers ++ [observer] }

/-- Method unsubscribe of NewsPublisher: this.subscribers becomes the filter
keeping the subscribers not reference-equal to the argument. -/
def NewsPublisher.unsubscribe (p : NewsPublisher) (observer : Nat) : NewsPublisher :=
  { p with subscribers := p.subscribers.filter (fun sub => sub ≠ observer) }

/-- Method notify of NewsPublisher: this.subscribers.forEach calls
subscriber.update(this.news) in list order; the result is the sequence of
update invocations (receiver reference paired with the delivered news). -/
def NewsPublisher.notify (p : NewsPublisher) : List (Nat × Option String) :=
  p.subscribers.foldl (fun acc sub => acc ++ [(sub, p.news)]) []

/-! ## Singleton examples: Database.getInstance and the Config Proxy

Object identity is modelled by a Nat allocated from a counter; the static
field holding the cached instance and the number of times the constructor
body has run are part of an explicit state. -/

/-- Static state of class Database: the allocation counter for fresh object
identities, the static field Database.instance (none while unset, which is
falsy in the source guard), and a count of constructor body executions. -/
structure DbState where
  nextId : Nat
  inst : Option Nat
  ctorRuns : Nat
deriving DecidableEq, Repr

/-- Initial static state: Database.instance unset, no constructor run. -/
def dbInit : DbState := { nextId := 0, inst := none, ctorRuns := 0 }

/-- Static method Database.getInstance: when Database.instance is falsy it
runs the constructor (allocating a fresh object and logging) and stores the
new object in Database.instance; it returns Database.instance. -/
def Database.getInstance (s : DbState) : Nat × DbState :=
  match s.inst with
  | some i => (i, s)
  | none =>
      (s.nextId,
       { nextId := s.nextId + 1, inst := some s.nextId, ctorRuns := s.ctorRuns + 1 })

/-- Sequence of n calls to Database.getInstance from a state, returning the
list of returned object references in call order and the final state. -/
def Database.runCalls : Nat → DbState → List Nat × DbState
  | 0, s => ([], s)
  | n + 1, s =>
      let (r, s1) := Database.getInstance s
      let (rs, s2) := Database.runCalls n s1
      (r :: rs, s2)

/-- Static state of class Config under the SingletonProxy: allocation
counter and the static field Config.instance (target.instance in the proxy
handler is the same property). -/
structure CfgState where
  nextId : Nat
  inst : Option Nat
deriving DecidableEq, Repr

/-- Initial static state of Config: no instance recorded. -/
def cfgInit : CfgState := { nextId := 0, inst := none }

/-- Constructor of class Config: when Config.instance is already set it
returns that instance (the freshly allocated this is discarded); otherwise
it initialises this.settings and records this in Config.instance. -/
def Config.new (s : CfgState) : Nat × CfgState :=
  match s.inst with
  | some i => (i, { s with nextId := s.nextId + 1 })
  | none => (s.nextId, { nextId := s.nextId + 1, inst := some s.nextId })

/-- Construct trap of SingletonProxy: when target.instance is falsy it runs
new target(...args) and stores the result in target.instance; it returns
target.instance. -/
def SingletonProxy.construct (s : CfgState) : Nat × CfgState :=
  match s.inst with
  | some i => (i, s)
  | none =>
      let (obj, s1) := Config.new s
      (obj, { s1 with inst := some obj })

/-- Sequence of n evaluations of new SingletonProxy() from a state. -/
def SingletonProxy.runCalls : Nat → CfgState → List Nat × CfgState
  | 0, s => ([], s)
  | n + 1, s =>
      let (r, s1) := SingletonProxy.construct s
      let (rs, s2) := SingletonProxy.runCalls n s1
      (r :: rs, s2)

/-! ## Template Method example: Beverage; Strategy example: PaymentStrategy

Methods that log and may throw are embedded as Except values: ok carries
the console lines printed, error carries the thrown Error message. -/

/-- Body of Beverage.brew in the base class: throws a generic Error, the
pedagogical stand-in for an abstract method. -/
def Beverage.brewBase : Except String (List String) :=
  .error "Метод brew() должен быть реализован"

/-- Body of Beverage.addCondiments in the base class: throws a generic
Error. -/
def Beverage.addCondimentsBase : Except String (List String) :=
  .error "Метод addCondiments() должен быть реализован"

/-- Body of Beverage.boilWater: logs one line and returns normally. -/
def Beverage.boilWater : Except String (List String) :=
  .ok ["Кипятим воду"]

/-- Body of Beverage.stir: logs one line and returns normally. -/
def Beverage.stir : Except String (List String) :=
  .ok ["Перемешиваем напиток"]

/-- Dynamic dispatch table of a Beverage receiver: the brew and
addCondiments slots a subclass may override. -/
structure BeverageVTable where
  brew : Except String (List String)
  addCondiments : Except String (List String)

/-- Dispatch table of a plain Beverage, whose class overrides nothing: both
abstract-method stand-ins are the throwing base bodies. -/
def Beverage.plain : BeverageVTable :=
  { brew := Beverage.brewBase, addCondiments := Beverage.addCondimentsBase }

/-- Sequencing of one template-method step: on success append the new log
lines, on a thrown error abort with the log so far and the message. -/
def runStep (acc : List String) (step : Except String (List String)) :
    Except (List String × String) (List String) :=
  match step with
  | .ok lines => .ok (acc ++ lines)
  | .error e => .error (acc, e)

/-- Template method Beverage.prepare: runs this.boilWater(), this.brew(),
this.addCondiments(), this.stir() in that order; a thrown error propagates,
carrying the console lines already printed. -/
def Beverage.prepare (b : BeverageVTable) : Except (List String × String) (List String) := do
  let l1 ← runStep [] Beverage.boilWater
  let l2 ← runStep l1 b.brew
  let l3 ← runStep l2 b.addCondiments
  runStep l3 Beverage.stir

/-- Method pay of class PaymentStrategy: throws a generic Error for every
amount. -/
def PaymentStrategy.pay (amount : Int) : Except String Unit :=
  .error "Метод pay() должен быть реализован"

/-! ## Facade example: TaskFacade

The snippet in the Template Method markdown defines TaskApproval,
TaskIndication and TaskNotification with instance methods only, stores one
instance of each in the TaskFacade constructor, and then — in
startBusinessProcess — accesses createApproval, createIndication and
sendNotification as properties of the class objects themselves. A property
of a JavaScript class object is a function only for methods declared
static; instance methods live on the prototype, so such an access yields
undefined and the call throws a TypeError. -/

/-- JavaScript values appearing in the facade snippet. -/
inductive JsVal where
  | str (s : String)
  | bool (b : Bool)
  | list (xs : List JsVal)

/-- Modelled from the spec: SimpleRecord(table).insert(), whose body the
snippet elides (/// ...); it stands for inserting a record and returning
its identifier-like result. -/
def SimpleRecord.insert (table : String) : JsVal :=
  .str ("inserted:" ++ table)

/-- Methods declared static in class TaskApproval: the class body declares
only a constructor and the instance method createApproval, so none. -/
def TaskApproval.staticMethods : List String := []

/-- Methods declared static in class TaskIndication: none. -/
def TaskIndication.staticMethods : List String := []

/-- Methods declared static in class TaskNotification: none. -/
def TaskNotification.staticMethods : List String := []

/-- Property access on a JavaScript class object followed by a call: the
access finds a callable only when the method is declared static; otherwise
the property is undefined and the call throws a TypeError. -/
def callClassMethod (className : String) (statics : List String)
    (method : String) (body : JsVal) : Except String JsVal :=
  if method ∈ statics then .ok body
  else .error ("TypeError: " ++ className ++ "." ++ method ++ " is not a function")

/-- Body of TaskApproval.prototype.createApproval: builds a SimpleRecord
for table approval and returns approval.insert(). -/
def TaskApproval.createApproval : JsVal := SimpleRecord.insert "approval"

/-- Body of TaskIndication.prototype.createIndication: builds a
SimpleRecord for table indication and returns indication.insert(). -/
def TaskIndication.createIndication : JsVal := SimpleRecord.insert "indication"

/-- Body of TaskNotification.prototype.sendNotification: returns the double
negation of notification.insert(), a boolean. -/
def TaskNotification.sendNotification : JsVal :=
  .bool true

/-- Method startBusinessProcess of TaskFacade as written in the source: it
evaluates TaskApproval.createApproval(), TaskIndication.createIndication()
and TaskNotification.sendNotification() — property accesses on the class
objects, not on the instances this.taskApproval, this.taskIndication,
this.taskNotification stored by the constructor — and returns the three
results as a list. -/
def TaskFacade.startBusinessProcess : Except String JsVal := do
  let approval ← callClassMethod "TaskApproval" TaskApproval.staticMethods
    "createApproval" TaskApproval.createApproval
  let indication ← callClassMethod "TaskIndication" TaskIndication.staticMethods
    "createIndication" TaskIndication.createIndication
  let notificationIsSend ← callClassMethod "TaskNotification" TaskNotification.staticMethods
    "sendNotification" TaskNotification.sendNotification
  return .list [approval, indication, notificationIsSend]

/-- Method startBusinessProcess as claim C2 describes it: invoking the
instance methods on the three helper objects stored by the constructor and
returning the three results as a list in that order. -/
def TaskFacade.startBusinessProcessClaimed : Except String JsVal :=
  .ok (.list [TaskApproval.createApproval, TaskIndication.createIndication,
    TaskNotification.sendNotification])

/-! ## Helper lemmas -/

/-- Unfolding of the fire fold: the invocation trace is the observer list
mapped to calls, appended to the accumulator. -/
theorem fire_foldl_trace (l : List Nat) (action : JsAction)
    (acc : List (Nat × JsAction)) (store : Nat → Observer) :
    (l.foldl
      (fun acc obs =>
        (acc.1 ++ [(obs, action)], Function.update acc.2 obs ((acc.2 obs).update action)))
      (acc, store)).1
      = acc ++ l.map (fun obs => (obs, action)) := by
  induction l generalizing acc store with
  | nil => simp
  | cons x xs ih => simp [List.foldl_cons, ih]

/-- Unfolding of the notify fold: the invocation trace is the subscriber
list mapped to deliveries, appended to the accumulator. -/
theorem notify_foldl_trace (l : List Nat) (news : Option String)
    (acc : List (Nat × Option String)) :
    (l.foldl (fun acc sub => acc ++ [(sub, news)]) acc)
      = acc ++ l.map (fun sub => (sub, news)) := by
  induction l generalizing acc with
  | nil => simp
  | cons x xs ih => simp [List.foldl_cons, ih]

/-- Observer.update never writes this.initialState. -/
theorem Observer.update_initialState (o : Observer) (a : JsAction) :
    (o.update a).initialState = o.initialState := by
  unfold Observer.update
  split <;> try rfl
  split <;> try rfl
  split <;> rfl

/-- A fold of updates never changes this.initialState. -/
theorem Observer.foldl_update_initialState (acts : List JsAction) (o : Observer) :
    (acts.foldl Observer.update o).initialState = o.initialState := by
  induction acts generalizing o with
  | nil => rfl
  | cons a as ih => simp [List.foldl_cons, ih, Observer.update_initialState]

/-- Database.getInstance is a pure read once Database.instance is set. -/
theorem Database.runCalls_afterInit (n : Nat) (i : Nat) (s : DbState) (h : s.inst = some i) :
    Database.runCalls n s = (List.replicate n i, s) := by
  induction n with
  | zero => rfl
  | succ k ih => simp [Database.runCalls, Database.getInstance, h, ih, List.replicate_succ]

/-- The SingletonProxy construct trap is a pure read once target.instance
is set. -/
theorem SingletonProxy.runCalls_fixed (n : Nat) (i : Nat) (s : CfgState)
    (h : s.inst = some i) :
    SingletonProxy.runCalls n s = (List.replicate n i, s) := by
  induction n with
  | zero => rfl
  | succ k ih =>
      simp [SingletonProxy.runCalls, SingletonProxy.construct, h, ih, List.replicate_succ]

/-! ## Claims -/

/-- C1: the adapter doctest holds — CalcAdapter.operations(25, 10, sub) on
a freshly constructed CalcAdapter returns 15, the adapter routing sub to
NewCalc.sub, which computes 25 - 10. -/
theorem calcAdapter_doctest :
    CalcAdapter.operations 25 10 "sub" = JsNum.num 15
    ∧ CalcAdapter.operations 25 10 "sub" = JsNum.num (NewCalc.sub 25 10) := by
  exact ⟨rfl, rfl⟩

/-- C5: the decorator doctest holds — a BoldDecorator wrapping
Text(Hello World) returns the tagged string from getContent, and the
wrapped Text object still carries content Hello World. -/
theorem boldDecorator_doctest :
    (TextComponent.bold (.text (Text.mk "Hello World"))).getContent = "<b>Hello World</b>"
    ∧ (Text.mk "Hello World").content = "Hello World" := by
  exact ⟨rfl, rfl⟩

/-- C6: decorators compose recursively preserving getContent — for every
string s, wrapping Text(s) in Bold, then Italic, then Underline yields the
concatenation of the three opening tags, s, and the three closing tags. -/
theorem decorators_compose (s : String) :
    (TextComponent.underline (.italic (.bold (.text (Text.mk s))))).getContent
      = "<u>" ++ "<i>" ++ "<b>" ++ s ++ "</b>" ++ "</i>" ++ "</u>" := by
  simp [TextComponent.getContent, String.append_assoc]
  rw [← String.append_assoc, ← String.append_assoc]
  rfl

/-- C8: OldCalc.operations and CalcAdapter.operations are extensionally
equal, and both agree with the operation table the claim states — add gives
t1 + t2, sub gives t1 - t2, anything else gives NaN. -/
theorem adapter_drop_in (t1 t2 : Int) (operation : String) :
    OldCalc.operations t1 t2 operation = CalcAdapter.operations t1 t2 operation
    ∧ OldCalc.operations t1 t2 operation = calcOperationsSpec t1 t2 operation := by
  exact ⟨rfl, rfl⟩

/-- C4: the abstract-method stand-ins throw — Beverage.brew and
Beverage.addCondiments on a receiver that overrides neither throw a generic
Error, PaymentStrategy.pay throws for every amount, and prepare on a plain
Beverage aborts at the brew step with only the boil-water line printed. -/
theorem abstract_stubs_throw :
    Beverage.plain.brew = Except.error "Метод brew() должен быть реализован"
    ∧ Beverage.plain.addCondiments = Except.error "Метод addCondiments() должен быть реализован"
    ∧ (∀ amount : Int, PaymentStrategy.pay amount
        = Except.error "Метод pay() должен быть реализован")
    ∧ Beverage.prepare Beverage.plain
        = Except.error (["Кипятим воду"], "Метод brew() должен быть реализован") := by
  exact ⟨rfl, rfl, fun _ => rfl, rfl⟩

/-- C7: the singleton snippets guarantee exactly one instance — every one
of n calls to Database.getInstance from the fresh static state returns the
same object (the one with identity 0), the Database constructor body runs
at most once over any such sequence, and likewise every evaluation of new
SingletonProxy() returns the same Config instance. -/
theorem singleton_unique_instance (n : Nat) :
    (Database.runCalls n dbInit).1 = List.replicate n 0
    ∧ (Database.runCalls n dbInit).2.ctorRuns ≤ 1
    ∧ (SingletonProxy.runCalls n cfgInit).1 = List.replicate n 0 := by
  cases n with
  | zero => exact ⟨rfl, by simp [Database.runCalls, dbInit], rfl⟩
  | succ k =>
      have hdb : Database.runCalls (k + 1) dbInit
          = (0 :: List.replicate k 0, { nextId := 1, inst := some 0, ctorRuns := 1 }) := by
        simp [Database.runCalls, Database.getInstance, dbInit,
          Database.runCalls_afterInit k 0 { nextId := 1, inst := some 0, ctorRuns := 1 } rfl]
      have hcfg : SingletonProxy.runCalls (k + 1) cfgInit
          = (0 :: List.replicate k 0, { nextId := 1, inst := some 0 }) := by
        simp [SingletonProxy.runCalls, SingletonProxy.construct, Config.new, cfgInit,
          SingletonProxy.runCalls_fixed k 0 { nextId := 1, inst := some 0 } rfl]
      refine ⟨?_, ?_, ?_⟩
      · rw [hdb, List.replicate_succ]
      · rw [hdb]
      · rw [hcfg, List.replicate_succ]

/-- C3: on every notification, each subscribed observer is updated exactly
once and in subscription order — the invocation trace of Subject.fire is
the observer list in order, each reference occurring in the trace exactly
as often as it is subscribed, and likewise the trace of
NewsPublisher.notify is the subscriber list in order. -/
theorem notify_in_subscription_order (s : Subject) (store : Nat → Observer)
    (action : JsAction) (p : NewsPublisher) :
    (s.fire store action).1 = s.observers.map (fun obs => (obs, action))
    ∧ (∀ obs, ((s.fire store action).1.map Prod.fst).count obs = s.observers.count obs)
    ∧ p.notify = p.subscribers.map (fun sub => (sub, p.news))
    ∧ (∀ sub, (p.notify.map Prod.fst).count sub = p.subscribers.count sub) := by
  have hf : (s.fire store action).1 = s.observers.map (fun obs => (obs, action)) := by
    unfold Subject.fire
    rw [fire_foldl_trace, List.nil_append]
  have hn : p.notify = p.subscribers.map (fun sub => (sub, p.news)) := by
    unfold NewsPublisher.notify
    rw [notify_foldl_trace, List.nil_append]
  refine ⟨hf, ?_, hn, ?_⟩
  · intro obs
    rw [hf, List.map_map]
    have hid : (Prod.fst ∘ fun obs => (obs, action)) = fun obs : Nat => obs := rfl
    rw [hid, List.map_id']
  · intro sub
    rw [hn, List.map_map]
    have hid : (Prod.fst ∘ fun sub => (sub, p.news)) = fun sub : Nat => sub := rfl
    rw [hid, List.map_id']

/-- C9: Subject.unsubscribe removes exactly the given observer — it no
longer appears in the list, every other observer keeps its multiplicity,
the remaining list is a sublist of the original (original relative order),
a subsequent fire invokes exactly the remaining observers in order and
never the removed one, and unsubscribing a reference that was never
subscribed leaves the subject unchanged. -/
theorem unsubscribe_frame (s : Subject) (o : Nat) :
    o ∉ (s.unsubscribe o).observers
    ∧ (∀ x, x ≠ o → (s.unsubscribe o).observers.count x = s.observers.count x)
    ∧ (s.unsubscribe o).observers.Sublist s.observers
    ∧ (∀ store action, ((s.unsubscribe o).fire store action).1
        = (s.unsubscribe o).observers.map (fun obs => (obs, action)))
    ∧ (∀ store action, (o, action) ∉ ((s.unsubscribe o).fire store action).1)
    ∧ (o ∉ s.observers → s.unsubscribe o = s) := by
  have htrace : ∀ store action, ((s.unsubscribe o).fire store action).1
      = (s.unsubscribe o).observers.map (fun obs => (obs, action)) := by
    intro store action
    unfold Subject.fire
    rw [fire_foldl_trace, List.nil_append]
  have hmem : o ∉ (s.unsubscribe o).observers := by
    simp [Subject.unsubscribe, List.mem_filter]
  refine ⟨hmem, ?_, ?_, htrace, ?_, ?_⟩
  · intro x hx
    simp only [Subject.unsubscribe]
    exact List.count_filter (by simpa using hx)
  · simp only [Subject.unsubscribe]
    exact List.filter_sublist _
  · intro store action hcall
    rw [htrace] at hcall
    rcases List.mem_map.mp hcall with ⟨obs, hobs, heq⟩
    cases heq
    exact hmem hobs
  · intro ho
    simp only [Subject.unsubscribe]
    congr 1
    rw [List.filter_eq_self]
    intro a ha
    have hao : a ≠ o := fun hao => ho (hao ▸ ha)
    simp [hao]

/-- Witness for C9 at a concrete subject: unsubscribing 2 from the subject
with observers [1, 2, 3] leaves 2 out, keeps the count of 3, and the
subject with observers [1, 3] is unchanged by unsubscribing 2 again. -/
theorem unsubscribe_frame_witness :
    2 ∉ ((Subject.mk [1, 2, 3]).unsubscribe 2).observers
    ∧ ((Subject.mk [1, 2, 3]).unsubscribe 2).observers.count 3
        = (Subject.mk [1, 2, 3]).observers.count 3
    ∧ (Subject.mk [1, 3]).unsubscribe 2 = Subject.mk [1, 3] :=
  ⟨(unsubscribe_frame (Subject.mk [1, 2, 3]) 2).1,
   (unsubscribe_frame (Subject.mk [1, 2, 3]) 2).2.1 3 (by decide),
   (unsubscribe_frame (Subject.mk [1, 3]) 2).2.2.2.2.2 (by decide)⟩

/-- C10: Observer.update treats any unrecognised action type as a reset to
the stored initialState — for an observer constructed with initial state s,
after any sequence of prior updates, an action whose type is none of PLUS,
MINUS, MULTI_PLUS sets the state back to s; PLUS adds 1, MINUS subtracts 1,
and MULTI_PLUS adds the action value to the current state. -/
theorem observer_update_semantics (s : Int) (acts : List JsAction) (a : JsAction)
    (h1 : a.type ≠ "PLUS") (h2 : a.type ≠ "MINUS") (h3 : a.type ≠ "MULTI_PLUS") :
    ((acts.foldl Observer.update (Observer.new s)).update a).state = s
    ∧ (∀ o : Observer, ∀ v : Int, (o.update { type := "PLUS", value := v }).state = o.state + 1)
    ∧ (∀ o : Observer, ∀ v : Int, (o.update { type := "MINUS", value := v }).state = o.state - 1)
    ∧ (∀ o : Observer, ∀ v : Int,
        (o.update { type := "MULTI_PLUS", value := v }).state = o.state + v) := by
  refine ⟨?_, fun o v => rfl, fun o v => rfl, fun o v => rfl⟩
  have hinit : (acts.foldl Observer.update (Observer.new s)).initialState = s :=
    Observer.foldl_update_initialState acts (Observer.new s)
  simp [Observer.update, h1, h2, h3, hinit]

/-- Witness for C10: from initial state 5, after a PLUS and a MULTI_PLUS 7,
an action of unrecognised type RESET brings the state back to 5. -/
theorem observer_update_semantics_witness :
    (([{ type := "PLUS", value := 0 }, { type := "MULTI_PLUS", value := 7 }] :
        List JsAction).foldl Observer.update (Observer.new 5)
      |>.update { type := "RESET", value := 0 }).state = 5 :=
  (observer_update_semantics 5
    [{ type := "PLUS", value := 0 }, { type := "MULTI_PLUS", value := 7 }]
    { type := "RESET", value := 0 } (by decide) (by decide) (by decide)).1

/-- C2: the facade snippet as written does not invoke the stored helper
instances — startBusinessProcess accesses createApproval on the class
object TaskApproval, which declares it only as an instance method, so the
call throws a TypeError instead of returning the three results the claim
describes; the claimed forwarding behaviour would return the list. -/
theorem taskFacade_static_call_throws :
    TaskFacade.startBusinessProcess
      = Except.error "TypeError: TaskApproval.createApproval is not a function"
    ∧ TaskFacade.startBusinessProcessClaimed
      = Except.ok (JsVal.list [JsVal.str "inserted:approval",
          JsVal.str "inserted:indication", JsVal.bool true])
    ∧ TaskFacade.startBusinessProcess ≠ TaskFacade.startBusinessProcessClaimed := by
  refine ⟨rfl, rfl, ?_⟩
  intro h
  exact Except.noConfusion h
